import Mathlib

/-!
Verification of the packet-to-session pipeline of the xae kernel
(src/kernel/net/net.c, src/kernel/auth/auth.c, src/kernel/drivers/rtl8139.c,
src/kernel/lib/string.c) against its natural-language specification.

The C sources are shallowly embedded: byte buffers become `List Nat` whose
entries are read modulo 256, machine integers become `Nat` with explicit
`% 2^16` / `% 2^32` where the C code can wrap, C strings become `List Nat`
containing a terminating 0, and the global session/user tables become
explicit state records threaded through the functions.  The target of the
original code is i386 (the drivers use x86 port I/O), so multi-byte loads
and stores through casts such as `(uint16_t*)buf` are little-endian.
-/

/-! ## Generic list helpers (array indexing as in C) -/

/-- Read element `i` of a list, with a default for out-of-range reads. -/
def getIdx {α : Type} (d : α) : List α → Nat → α
  | [], _ => d
  | x :: _, 0 => x
  | _ :: rest, n + 1 => getIdx d rest n

/-- Write element `i` of a list; out-of-range writes are dropped. -/
def setIdx {α : Type} : List α → Nat → α → List α
  | [], _, _ => []
  | _ :: rest, 0, x => x :: rest
  | y :: rest, n + 1, x => y :: setIdx rest n x

/-- Index of the first element satisfying `p`, like a C linear scan. -/
def findIdxP {α : Type} (p : α → Bool) : List α → Option Nat
  | [] => none
  | x :: rest => if p x then some 0 else (findIdxP p rest).map (· + 1)

/-- Whether `needle` occurs contiguously at the head of `hay`. -/
def startsWithN : List Nat → List Nat → Bool
  | [], _ => true
  | _ :: _, [] => false
  | a :: as, b :: bs => a == b && startsWithN as bs

/-- Whether `needle` occurs contiguously anywhere inside `hay`. -/
def seqIn (needle : List Nat) : List Nat → Bool
  | [] => startsWithN needle []
  | b :: rest => startsWithN needle (b :: rest) || seqIn needle rest

/-! ## Byte and word utilities -/

/-- Read one byte of a buffer (memory holds `uint8_t`, hence `% 256`). -/
def byteAt (l : List Nat) (i : Nat) : Nat := getIdx 0 l i % 256

/-- Little-endian 16-bit load, as `*(uint16_t*)` on the i386 target. -/
def read16LE (l : List Nat) (i : Nat) : Nat :=
  byteAt l i + 256 * byteAt l (i + 1)

/-- Little-endian 32-bit load, as `*(uint32_t*)` on the i386 target. -/
def read32LE (l : List Nat) (i : Nat) : Nat :=
  byteAt l i + 256 * byteAt l (i + 1) + 65536 * byteAt l (i + 2) +
    16777216 * byteAt l (i + 3)

/-- Little-endian byte serialization of a stored `uint16_t` value. -/
def le16 (v : Nat) : List Nat := [v % 256, v / 256 % 256]

/-- Little-endian byte serialization of a stored `uint32_t` value. -/
def le32 (v : Nat) : List Nat :=
  [v % 256, v / 256 % 256, v / 65536 % 256, v / 16777216 % 256]

/-- net.c `htons`: `((x & 0xFF) << 8) | ((x >> 8) & 0xFF)` on a `uint16_t`. -/
def htons (x : Nat) : Nat := (x % 256) * 256 + (x / 256) % 256

/-- net.c `htonl`: byte-reversal of a `uint32_t`. -/
def htonl (x : Nat) : Nat :=
  (x % 256) * 16777216 + (x / 256 % 256) * 65536 +
    (x / 65536 % 256) * 256 + x / 16777216 % 256

/-- Byte swap of a 16-bit value (used to relate the two checksum byte orders). -/
def swap16 (v : Nat) : Nat := (v % 256) * 256 + v / 256

/-! ## net_checksum (net.c lines 31-48)

The C loop reads `uint16_t` words from the byte buffer; on the i386 target
these are little-endian loads, and a final odd byte is added as the low
byte of a word (`sum += *(uint8_t*)data`). -/

/-- Word-sum of `net_checksum`: 16-bit little-endian words, trailing odd
byte added as a bare byte, accumulated without truncation (the C
accumulator is a `uint32_t` and cannot overflow for `uint16_t` lengths). -/
def sum16 : List Nat → Nat
  | [] => 0
  | [b] => b
  | b0 :: b1 :: rest => (b0 + 256 * b1) + sum16 rest

/-- One fold pass bounded by fuel.  The C loop `while (sum >> 16)` strictly
decreases `sum` on every iteration, so fuel equal to the initial value is
always sufficient (`foldGo_spec` below proves the characterization). -/
def foldGo : Nat → Nat → Nat
  | 0, v => v
  | f + 1, v => if v < 65536 then v else foldGo f (v % 65536 + v / 65536)

/-- Carry folding of `net_checksum`: `sum = (sum & 0xFFFF) + (sum >> 16)`
until no carry remains. -/
def foldCarry (s : Nat) : Nat := foldGo s s

/-- `net_checksum` over a byte sequence: fold the word sum and return the
one's complement (`~sum` truncated to `uint16_t` is `65535 - sum`). -/
def net_checksum (bytes : List Nat) : Nat := 65535 - foldCarry (sum16 bytes)

/-- Word-sum following the spec's words: 16-bit big-endian words, an odd
trailing byte padded (with a zero low byte) to a word. -/
def sum16be : List Nat → Nat
  | [] => 0
  | [b] => 256 * b
  | b0 :: b1 :: rest => (256 * b0 + b1) + sum16be rest

/-- Checksum following the spec's words (big-endian words, same fold and
complement); compared against `net_checksum` for claim C4. -/
def checksum_spec_be (bytes : List Nat) : Nat := 65535 - foldCarry (sum16be bytes)

/-! ### Checksum lemmas -/

theorem foldGo_spec (f : Nat) : ∀ v : Nat, v ≤ f + 65535 →
    foldGo f v = if v = 0 then 0 else (v - 1) % 65535 + 1 := by
  induction f with
  | zero =>
    intro v hv
    unfold foldGo
    split <;> omega
  | succ f ih =>
    intro v hv
    unfold foldGo
    by_cases h : v < 65536
    · rw [if_pos h]
      split <;> omega
    · rw [if_neg h]
      rw [ih (v % 65536 + v / 65536) (by omega)]
      split <;> split <;> omega

theorem foldCarry_spec (s : Nat) :
    foldCarry s = if s = 0 then 0 else (s - 1) % 65535 + 1 := by
  unfold foldCarry
  exact foldGo_spec s s (by omega)

theorem sum16_cong : ∀ l : List Nat,
    sum16be l % 65535 = (256 * sum16 l) % 65535
  | [] => by simp [sum16, sum16be]
  | [b] => by simp [sum16, sum16be]
  | b0 :: b1 :: rest => by
    have ih := sum16_cong rest
    simp only [sum16, sum16be]
    omega

theorem sum16_zero : ∀ l : List Nat, sum16 l = 0 ↔ sum16be l = 0
  | [] => by simp [sum16, sum16be]
  | [b] => by simp [sum16, sum16be]
  | b0 :: b1 :: rest => by
    have ih := sum16_zero rest
    simp only [sum16, sum16be]
    omega

theorem checksum_swap_aux (s t : Nat)
    (hc : t % 65535 = (256 * s) % 65535) (hz : s = 0 ↔ t = 0) :
    65535 - foldCarry s = swap16 (65535 - foldCarry t) := by
  rw [foldCarry_spec s, foldCarry_spec t]
  unfold swap16
  by_cases h0 : s = 0
  · rw [if_pos h0, if_pos (hz.mp h0)]
  · rw [if_neg h0, if_neg (fun ht => h0 (hz.mpr ht))]
    omega

/-! ## encrypt_data / decrypt_data (auth.c lines 51-60)

`encrypt_data(data, length, key)` XORs the first `length` bytes of the
buffer with the one-byte key; `decrypt_data` simply calls `encrypt_data`. -/

/-- auth.c `encrypt_data`: XOR each of the first `length` bytes with `key`. -/
def encrypt_data : List Nat → Nat → Nat → List Nat
  | [], _, _ => []
  | l, 0, _ => l
  | b :: rest, n + 1, key => (b ^^^ key) :: encrypt_data rest n key

/-- auth.c `decrypt_data`: XOR is symmetric, so it calls `encrypt_data`. -/
def decrypt_data (data : List Nat) (length key : Nat) : List Nat :=
  encrypt_data data length key

/-! ## C strings (lib/string.c)

A C string is modelled as the byte list of the memory holding it; every
list built below contains a terminating 0, and `strcmp`/`strlen` never
look past the first 0, exactly like the C code. -/

/-- string.c `strcmp` (lines 95-102): compare until a mismatch or a NUL. -/
def strcmp : List Nat → List Nat → Int
  | [], [] => 0
  | [], b :: _ => 0 - (b : Int)
  | a :: _, [] => (a : Int)
  | a :: s1, b :: s2 =>
    if a ≠ 0 ∧ a = b then strcmp s1 s2 else (a : Int) - (b : Int)

/-- Standard C `strncmp` with bound `n`; the list end acts as the NUL.
Modelled from the spec: shell.c calls `strncmp` but the repository does not
define it, so the standard prefix-compare semantics is used (the claims
below do not depend on which shell reply branch is chosen). -/
def strncmp : Nat → List Nat → List Nat → Int
  | 0, _, _ => 0
  | _ + 1, [], [] => 0
  | _ + 1, [], b :: _ => 0 - (b : Int)
  | _ + 1, a :: _, [] => (a : Int)
  | n + 1, a :: s1, b :: s2 =>
    if a ≠ 0 ∧ a = b then strncmp n s1 s2 else (a : Int) - (b : Int)

/-- string.c `strcpy`: the destination memory after copying content and
terminator. -/
def strcpyBytes (src : List Nat) : List Nat := src.takeWhile (· ≠ 0) ++ [0]

/-! ## Credential store (auth.c) -/

/-- auth.h `user_t`: username and digest are C strings, `active` a flag. -/
structure AuthUser where
  username : List Nat
  password : List Nat
  active : Bool
deriving DecidableEq

/-- The `users[MAX_USERS]` table together with `num_users`. -/
structure AuthState where
  users : List AuthUser
  num_users : Nat
deriving DecidableEq

/-- Helper for `auth_hash_password`: byte `i` becomes `byte ^ (i + 0x42)`. -/
def hashBytes : List Nat → Nat → List Nat
  | [], _ => []
  | b :: rest, i => (b ^^^ (i + 66)) :: hashBytes rest (i + 1)

/-- auth.c `auth_hash_password` (lines 18-26): XOR each password character
with its index plus 0x42 and append the terminator written at
`hash_out[len]`.  (All call sites pass passwords shorter than 64 bytes, so
the `i < 63` cap in the loop never truncates.) -/
def auth_hash_password (password : List Nat) : List Nat :=
  hashBytes (password.takeWhile (· ≠ 0)) 0 ++ [0]

/-- auth.c state after `auth_init` clears the table (BSS memory is zero). -/
def authEmptyState : AuthState :=
  ⟨List.replicate 5 ⟨[0], [0], false⟩, 0⟩

/-- auth.c `auth_add_user` (lines 28-35). -/
def auth_add_user (st : AuthState) (username password : List Nat) : AuthState :=
  if st.num_users ≥ 5 then st
  else
    ⟨setIdx st.users st.num_users
        ⟨strcpyBytes username, auth_hash_password password, true⟩,
      st.num_users + 1⟩

/-- auth.c `auth_verify` (lines 37-49): hash the candidate password and
scan all table slots for an active entry matching both strings. -/
def auth_verify (st : AuthState) (username password : List Nat) : Bool :=
  st.users.any fun u =>
    u.active && (strcmp u.username username == 0) &&
      (strcmp u.password (auth_hash_password password) == 0)

/-- auth.c `auth_init` (lines 7-16): the two built-in accounts. -/
def auth_init_state : AuthState :=
  auth_add_user
    (auth_add_user authEmptyState
      [97, 100, 109, 105, 110, 0]                      -- "admin"
      [97, 100, 109, 105, 110, 49, 50, 51, 0])         -- "admin123"
    [117, 115, 101, 114, 0]                            -- "user"
    [112, 97, 115, 115, 119, 111, 114, 100, 0]         -- "password"

/-! ## RTL8139 transmit slots (rtl8139.c lines 136-153) -/

/-- Driver transmit state: `rtl8139_io_base`, `tx_current` and the four
1536-byte transmit buffers `tx_buf`. -/
structure TxState where
  io_base : Nat
  tx_current : Nat
  bufs : List (List Nat)
deriving DecidableEq

/-- Driver state right after `rtl8139_init` found the device at `io`:
`tx_current` is the zero-initialized static, the buffers are BSS zeros. -/
def txInit (io : Nat) : TxState :=
  ⟨io, 0, List.replicate 4 (List.replicate 1536 0)⟩

/-- rtl8139.c `rtl8139_send_packet`: reject silently if the device is
absent or `length > 1500`; otherwise copy the first `length` bytes over
the current slot, hand the slot to hardware, and advance `tx_current`
modulo 4.  The returned `Option Nat` is the slot index programmed into the
hardware registers (`none` when the send was dropped). -/
def rtl8139_send_packet (st : TxState) (data : List Nat) (length : Nat) :
    TxState × Option Nat :=
  if st.io_base = 0 ∨ length > 1500 then (st, none)
  else
    (⟨st.io_base, (st.tx_current + 1) % 4,
        setIdx st.bufs st.tx_current
          (data.take length ++ (getIdx [] st.bufs st.tx_current).drop length)⟩,
      some st.tx_current)

/-- Run a sequence of sends, collecting the slot each send used. -/
def sendRun : TxState → List (List Nat × Nat) → TxState × List (Option Nat)
  | st, [] => (st, [])
  | st, (d, l) :: rest =>
    let r := rtl8139_send_packet st d l
    let rr := sendRun r.1 rest
    (rr.1, r.2 :: rr.2)

/-! ## RTL8139 receive cursor (rtl8139.c lines 186-197)

After consuming a frame the handler executes
`rx_offset = (rx_offset + length + 4 + 3) & ~3;` (a `uint16_t` store of an
`int` expression) followed by `if (rx_offset >= 8192) rx_offset -= 8192;`.
Note the wrap is a single conditional subtraction, not a modulo. -/

/-- Cursor advance for one consumed frame with hardware length field `len`. -/
def rxStep (off len : Nat) : Nat :=
  let x := (off + len + 4 + 3) / 4 * 4 % 65536
  if x ≥ 8192 then x - 8192 else x

/-- Cursor after consuming a sequence of frames. -/
def rxSteps (off : Nat) (ls : List Nat) : Nat := ls.foldl rxStep off

/-! ## Session table and packet processor (net.c) -/

/-- net.h `session_t`. -/
structure Session where
  client_ip : Nat
  client_port : Nat
  seq_num : Nat
  ack_num : Nat
  authenticated : Bool
  active : Bool
  username : List Nat
deriving DecidableEq

/-- A cleared session slot (static storage is zero; `net_init` clears
`active` and `authenticated`). -/
def initSession : Session := ⟨0, 0, 0, 0, false, false, [0]⟩

/-- The `sessions[5]` table together with `num_sessions`. -/
structure NetState where
  sessions : List Session
  num_sessions : Nat
deriving DecidableEq

/-- State after net.c `net_init`: all five slots inactive. -/
def netInitState : NetState := ⟨List.replicate 5 initSession, 0⟩

/-- net.c `net_get_session` (lines 50-59): first active slot matching the
client (ip, port), as a slot index. -/
def net_get_session (st : NetState) (ip port : Nat) : Option Nat :=
  findIdxP (fun s => s.active && s.client_ip == ip && s.client_port == port)
    st.sessions

/-- net.c `net_create_session` (lines 61-77): fail when the table is full,
otherwise claim the first inactive slot with `seq_num = 1000`,
`ack_num = 0`, `authenticated = false` (the stale `username` bytes of the
slot are not cleared).  Returns the claimed index and the new table. -/
def net_create_session (st : NetState) (ip port : Nat) :
    Option (Nat × NetState) :=
  if st.num_sessions ≥ 5 then none
  else
    match findIdxP (fun s => !s.active) st.sessions with
    | none => none
    | some i =>
      some (i,
        ⟨setIdx st.sessions i
            { getIdx initSession st.sessions i with
              active := true, authenticated := false, client_ip := ip,
              client_port := port, seq_num := 1000, ack_num := 0 },
          st.num_sessions + 1⟩)

/-- `my_mac` from net.h `MY_MAC_ADDR`. -/
def my_mac : List Nat := [82, 84, 0, 18, 52, 86]

/-- The IPv4 header built by `net_send_tcp` with its checksum field still
zero, as the bytes laid out in the packet buffer (little-endian stores of
the `htons`/`htonl` values, hence big-endian on the wire). -/
def ipHeaderZero (dlen dip : Nat) : List Nat :=
  [69, 0] ++ le16 (htons ((40 + dlen) % 65536)) ++ le16 (htons 1234) ++
    [0, 0] ++ [64, 6] ++ [0, 0] ++ le32 (htonl 167772162) ++ le32 (htonl dip)

/-- The IPv4 header after `ip->checksum` is filled in. -/
def ipHeader (dlen dip : Nat) : List Nat :=
  (ipHeaderZero dlen dip).take 10 ++
    le16 (net_checksum (ipHeaderZero dlen dip)) ++ (ipHeaderZero dlen dip).drop 12

/-- The TCP header built by `net_send_tcp` with its checksum still zero:
source port 23, flags PSH|ACK (0x18), data offset 0x50, window 8192. -/
def tcpHeaderZero (s : Session) : List Nat :=
  le16 (htons 23) ++ le16 (htons s.client_port) ++ le32 (htonl s.seq_num) ++
    le32 (htonl s.ack_num) ++ [80, 24] ++ le16 (htons 8192) ++ [0, 0] ++ [0, 0]

/-- The TCP header after `tcp->checksum` is computed over the TCP header
plus payload (no pseudo-header, as in the source). -/
def tcpHeader (s : Session) (data : List Nat) : List Nat :=
  (tcpHeaderZero s).take 16 ++
    le16 (net_checksum (tcpHeaderZero s ++ data)) ++ [0, 0]

/-- The Ethernet header: broadcast destination, `my_mac`, ethertype IPv4. -/
def ethHeader : List Nat :=
  [255, 255, 255, 255, 255, 255] ++ my_mac ++ le16 (htons 2048)

/-- net.c `net_send_tcp` (lines 79-135): build one contiguous frame
(Ethernet, IPv4, TCP, then the reply bytes copied verbatim), hand it to
`rtl8139_send_packet`, and advance the session's `seq_num` by the payload
length.  Returns the frame handed to the transmit path and the updated
session. -/
def net_send_tcp (s : Session) (data : List Nat) : List Nat × Session :=
  (ethHeader ++ ipHeader data.length s.client_ip ++ tcpHeader s data ++ data,
    { s with seq_num := (s.seq_num + data.length) % 4294967296 })

/-- TCP data offset in bytes: `(tcp->data_offset >> 4) * 4`. -/
def tcpDoff (packet : List Nat) : Nat := (byteAt packet 46 >>> 4) * 4

/-- `uint16_t payload_len = htons(ip->total_length) - 20 - data_offset`
(int arithmetic stored into a `uint16_t`, so negative values wrap). -/
def payloadLen (packet : List Nat) : Nat :=
  (((htons (read16LE packet 16) : Int) - 20 - (tcpDoff packet : Int)) % 65536).toNat

/-- The inbound TCP payload bytes as received on the wire. -/
def rawPayload (packet : List Nat) : List Nat :=
  ((packet.drop (34 + tcpDoff packet)).take (payloadLen packet)).map (· % 256)

/-- The inbound payload after `decrypt_data(payload, payload_len, 0x42)`. -/
def rxPayload (packet : List Nat) : List Nat :=
  decrypt_data (rawPayload packet) (payloadLen packet) 66

/-- The credential-parsing loops of `net_process_packet` (lines 200-209):
consume characters until the stop byte, the capacity bound, or the end of
the payload; return the consumed prefix and the unconsumed remainder. -/
def takeCred (stop : Nat) : Nat → List Nat → List Nat × List Nat
  | _, [] => ([], [])
  | 0, l => ([], l)
  | cap + 1, c :: rest =>
    if c = stop then ([], c :: rest)
    else
      let r := takeCred stop cap rest
      (c :: r.1, r.2)

/-- The `username[32]` C string parsed from a decrypted payload: up to 31
characters before the first ':' (the array is zero-initialized). -/
def credUser (payload : List Nat) : List Nat :=
  (takeCred 58 31 payload).1 ++ [0]

/-- The `password[64]` C string parsed from a decrypted payload: after
skipping one byte (the ':'), up to 63 characters before the first
newline. -/
def credPass (payload : List Nat) : List Nat :=
  (takeCred 10 63 ((takeCred 58 31 payload).2.drop 1)).1 ++ [0]

/-- "XAE OS Login\nUsername: " -/
def loginPrompt : List Nat :=
  [88, 65, 69, 32, 79, 83, 32, 76, 111, 103, 105, 110, 10,
   85, 115, 101, 114, 110, 97, 109, 101, 58, 32]

/-- "\nWelcome to XAE OS!\n> " -/
def welcomeMsg : List Nat :=
  [10, 87, 101, 108, 99, 111, 109, 101, 32, 116, 111, 32, 88, 65, 69, 32,
   79, 83, 33, 10, 62, 32]

/-- "\nAuthentication failed!\nUsername: " -/
def failMsg : List Nat :=
  [10, 65, 117, 116, 104, 101, 110, 116, 105, 99, 97, 116, 105, 111, 110,
   32, 102, 97, 105, 108, 101, 100, 33, 10, 85, 115, 101, 114, 110, 97,
   109, 101, 58, 32]

/-- "\nExecuting: " -/
def execMsg : List Nat := [10, 69, 120, 101, 99, 117, 116, 105, 110, 103, 58, 32]

/-- "Files in current directory:\n" -/
def lsMsg : List Nat :=
  [70, 105, 108, 101, 115, 32, 105, 110, 32, 99, 117, 114, 114, 101, 110,
   116, 32, 100, 105, 114, 101, 99, 116, 111, 114, 121, 58, 10]

/-- "XAE Shell Commands:\n" -/
def helpMsgA : List Nat :=
  [88, 65, 69, 32, 83, 104, 101, 108, 108, 32, 67, 111, 109, 109, 97, 110,
   100, 115, 58, 10]

/-- "  ls, cd, mk, rm, edit, fun, sync, help\n" -/
def helpMsgB : List Nat :=
  [32, 32, 108, 115, 44, 32, 99, 100, 44, 32, 109, 107, 44, 32, 114, 109,
   44, 32, 101, 100, 105, 116, 44, 32, 102, 117, 110, 44, 32, 115, 121,
   110, 99, 44, 32, 104, 101, 108, 112, 10]

/-- "Command not yet supported via network\n" -/
def notSupMsg : List Nat :=
  [67, 111, 109, 109, 97, 110, 100, 32, 110, 111, 116, 32, 121, 101, 116,
   32, 115, 117, 112, 112, 111, 114, 116, 101, 100, 32, 118, 105, 97, 32,
   110, 101, 116, 119, 111, 114, 107, 10]

/-- "> " -/
def promptMsg : List Nat := [62, 32]

/-- Send a sequence of replies through `net_send_tcp`, threading the
session (shell.c `shell_net_print` with the session always valid). -/
def sendAll : Session → List (List Nat) → Session × List (List Nat)
  | s, [] => (s, [])
  | s, m :: rest =>
    let fs := net_send_tcp s m
    let r := sendAll fs.2 rest
    (r.1, fs.1 :: r.2)

/-- shell.c `shell_execute_command` (lines 489-528): copy the command up
to the first NUL/CR/LF (at most 255 bytes), echo it, then answer according
to the leading token; every reply goes out through `net_send_tcp`. -/
def shell_execute_command (cmd : List Nat) (s : Session) :
    Session × List (List Nat) :=
  let buffer := (cmd.takeWhile fun c => !(c == 0) && !(c == 10) && !(c == 13)).take 255
  let token := buffer.dropWhile (· == 32)
  sendAll s
    ([execMsg, buffer, [10]] ++
      (if token = [] then [promptMsg]
       else
        (if strncmp 2 token [108, 115] = 0 then [lsMsg]
         else if strncmp 4 token [104, 101, 108, 112] = 0 then [helpMsgA, helpMsgB]
         else [notSupMsg]) ++ [promptMsg]))

/-- Result of `net_process_packet`: the new session table, the frames
handed to `rtl8139_send_packet` in order, and (as ghost instrumentation
for the specification) the number of `auth_verify` calls made. -/
structure PRes where
  st : NetState
  frames : List (List Nat)
  verifies : Nat
deriving DecidableEq

/-- The SYN branch after a session was created (net.c lines 166-179):
set `ack_num` from the peer's sequence number plus one, then send the
login prompt (which advances `seq_num`), storing the session back. -/
def handleSynReply (st1 : NetState) (packet : List Nat) (i : Nat) : PRes :=
  let s1 := { getIdx initSession st1.sessions i with
              ack_num := (htonl (read32LE packet 38) + 1) % 4294967296 }
  let fs := net_send_tcp s1 loginPrompt
  ⟨⟨setIdx st1.sessions i fs.2, st1.num_sessions⟩, [fs.1], 0⟩

/-- The PSH branch for an existing session (net.c lines 183-229): advance
`ack_num` by the payload length, decrypt the payload with key 0x42, then
either run the credential check (unauthenticated) or dispatch the command
to the shell (authenticated). -/
def handlePsh (auth : AuthState) (st : NetState) (packet : List Nat) (i : Nat) :
    PRes :=
  let sAck := { getIdx initSession st.sessions i with
                ack_num := (htonl (read32LE packet 38) + payloadLen packet) %
                  4294967296 }
  -- the `ack_num` write does not touch the flag, so the C test
  -- `!session->authenticated` reads exactly the slot's stored flag
  if (getIdx initSession st.sessions i).authenticated = false then
    if auth_verify auth (credUser (rxPayload packet)) (credPass (rxPayload packet))
    then
      let fs := net_send_tcp
        { sAck with authenticated := true,
                    username := strcpyBytes (credUser (rxPayload packet)) }
        welcomeMsg
      ⟨⟨setIdx st.sessions i fs.2, st.num_sessions⟩, [fs.1], 1⟩
    else
      let fs := net_send_tcp sAck failMsg
      ⟨⟨setIdx st.sessions i fs.2, st.num_sessions⟩, [fs.1], 1⟩
  else
    let r := shell_execute_command ((rxPayload packet).take 255 ++ [0]) sAck
    ⟨⟨setIdx st.sessions i r.1, st.num_sessions⟩, r.2, 0⟩

/-- net.c `net_process_packet` (lines 137-231): drop frames that are too
short, not IPv4, not TCP, or not addressed to port 23; on SYN create a
session and send the login prompt (silently dropping when the table is
full or the session already exists); on PSH with an existing session run
the credential/command machine. -/
def net_process_packet (auth : AuthState) (st : NetState) (packet : List Nat)
    (len : Nat) : PRes :=
  if len < 34 then ⟨st, [], 0⟩
  else if htons (read16LE packet 12) ≠ 2048 then ⟨st, [], 0⟩
  else if byteAt packet 23 ≠ 6 then ⟨st, [], 0⟩
  else if htons (read16LE packet 36) ≠ 23 then ⟨st, [], 0⟩
  else if byteAt packet 47 &&& 2 ≠ 0 then
    match net_get_session st (htonl (read32LE packet 26))
        (htons (read16LE packet 34)) with
    | some _ => ⟨st, [], 0⟩
    | none =>
      match net_create_session st (htonl (read32LE packet 26))
          (htons (read16LE packet 34)) with
      | none => ⟨st, [], 0⟩
      | some (i, st1) => handleSynReply st1 packet i
  else
    match net_get_session st (htonl (read32LE packet 26))
        (htons (read16LE packet 34)) with
    | some i =>
      if byteAt packet 47 &&& 8 ≠ 0 then handlePsh auth st packet i
      else ⟨st, [], 0⟩
    | none => ⟨st, [], 0⟩

/-- The session table after a sequence of `net_process_packet` calls. -/
def processAll (auth : AuthState) : NetState → List (List Nat × Nat) → NetState
  | st, [] => st
  | st, p :: rest => processAll auth (net_process_packet auth st p.1 p.2).st rest

/-! ## Helper lemmas -/

theorem getIdx_setIdx_self {α : Type} (d : α) :
    ∀ (l : List α) (i : Nat) (x : α), i < l.length →
      getIdx d (setIdx l i x) i = x
  | [], i, x, h => by simp at h
  | _ :: rest, 0, x, _ => rfl
  | y :: rest, i + 1, x, h =>
    getIdx_setIdx_self d rest i x (by simpa using h)

theorem getIdx_setIdx_ne {α : Type} (d : α) :
    ∀ (l : List α) (i j : Nat) (x : α), i ≠ j →
      getIdx d (setIdx l j x) i = getIdx d l i
  | [], _, _, _, _ => rfl
  | y :: rest, 0, 0, x, h => absurd rfl h
  | y :: rest, 0, j + 1, x, _ => rfl
  | y :: rest, i + 1, 0, x, _ => rfl
  | y :: rest, i + 1, j + 1, x, h =>
    getIdx_setIdx_ne d rest i j x (fun hij => h (by omega))

theorem findIdxP_some {α : Type} (p : α → Bool) (d : α) :
    ∀ (l : List α) (j : Nat), findIdxP p l = some j →
      p (getIdx d l j) = true ∧ j < l.length
  | [], j, h => by simp [findIdxP] at h
  | x :: rest, j, h => by
    by_cases hx : p x
    · simp [findIdxP, hx] at h
      subst h
      exact ⟨hx, by simp⟩
    · simp [findIdxP, hx] at h
      cases hr : findIdxP p rest with
      | none => rw [hr] at h; simp at h
      | some k =>
        rw [hr] at h
        simp at h
        subst h
        have ih := findIdxP_some p d rest k hr
        exact ⟨ih.1, by simp; omega⟩

theorem findIdxP_none {α : Type} (p : α → Bool) :
    ∀ l : List α, (∀ x ∈ l, p x = false) → findIdxP p l = none
  | [], _ => rfl
  | x :: rest, h => by
    have hx := h x (by simp)
    simp [findIdxP, hx]
    exact findIdxP_none p rest fun y hy => h y (by simp [hy])

/-- The TCP payload of a frame built by `net_send_tcp` is the reply text
itself, located after the 54 header bytes. -/
theorem send_tcp_payload (s : Session) (data : List Nat) :
    ((net_send_tcp s data).1).drop 54 = data := by
  rfl

/-- `net_send_tcp` changes only the session's `seq_num`. -/
theorem send_tcp_session (s : Session) (data : List Nat) :
    (net_send_tcp s data).2 =
      { s with seq_num := (s.seq_num + data.length) % 4294967296 } := rfl

theorem sendAll_session : ∀ (msgs : List (List Nat)) (s : Session),
    ((sendAll s msgs).1).authenticated = s.authenticated ∧
    ((sendAll s msgs).1).active = s.active
  | [], s => ⟨rfl, rfl⟩
  | m :: rest, s => by
    have := sendAll_session rest (net_send_tcp s m).2
    simpa [sendAll, net_send_tcp] using this

theorem shell_session (cmd : List Nat) (s : Session) :
    ((shell_execute_command cmd s).1).authenticated = s.authenticated ∧
    ((shell_execute_command cmd s).1).active = s.active := by
  unfold shell_execute_command
  exact sendAll_session _ s

/-- Inversion for a successful `net_create_session`: the claimed slot was
inactive, and the new table rewrites exactly that slot. -/
theorem create_some (st : NetState) (ip port : Nat) (i : Nat) (st1 : NetState)
    (h : net_create_session st ip port = some (i, st1)) :
    (getIdx initSession st.sessions i).active = false ∧
    i < st.sessions.length ∧
    st1.sessions = setIdx st.sessions i
      { getIdx initSession st.sessions i with
        active := true, authenticated := false, client_ip := ip,
        client_port := port, seq_num := 1000, ack_num := 0 } := by
  unfold net_create_session at h
  split at h
  · simp at h
  · cases hf : findIdxP (fun s => !s.active) st.sessions with
    | none => rw [hf] at h; simp at h
    | some j =>
      rw [hf] at h
      simp only [Option.some.injEq, Prod.mk.injEq] at h
      obtain ⟨hij, hst⟩ := h
      subst hij
      subst hst
      have hspec := findIdxP_some (fun s => !s.active) initSession st.sessions j hf
      exact ⟨by simpa using hspec.1, hspec.2, rfl⟩

/-- Inversion for `net_get_session`: the found slot is active and matches
the client identity. -/
theorem get_session_some (st : NetState) (ip port : Nat) (i : Nat)
    (h : net_get_session st ip port = some i) :
    (getIdx initSession st.sessions i).active = true ∧
    (getIdx initSession st.sessions i).client_ip = ip ∧
    (getIdx initSession st.sessions i).client_port = port ∧
    i < st.sessions.length := by
  unfold net_get_session at h
  have hp := findIdxP_some
    (fun s => s.active && s.client_ip == ip && s.client_port == port)
    initSession st.sessions i h
  have hb := hp.1
  simp only [Bool.and_eq_true, beq_iff_eq] at hb
  exact ⟨hb.1.1, hb.1.2, hb.2, hp.2⟩

theorem encrypt_full : ∀ (l : List Nat) (n k : Nat), l.length ≤ n →
    encrypt_data l n k = l.map (· ^^^ k)
  | [], n, k, _ => by cases n <;> rfl
  | b :: rest, 0, k, h => by simp at h
  | b :: rest, n + 1, k, h => by
    simp only [encrypt_data, List.map_cons]
    rw [encrypt_full rest n k (by simpa using h)]

/-! ## Claim theorems -/

/-- Claim C7: for every byte sequence, every length and every one-byte
key, encrypting with `encrypt_data` and then decrypting with
`decrypt_data` under the same key restores the original buffer. -/
theorem c7_xor_roundtrip : ∀ (p : List Nat) (len key : Nat),
    decrypt_data (encrypt_data p len key) len key = p
  | [], len, key => by cases len <;> rfl
  | b :: rest, 0, key => rfl
  | b :: rest, n + 1, key => by
    have ih := c7_xor_roundtrip rest n key
    simp only [decrypt_data, encrypt_data] at ih ⊢
    simp [ih, Nat.xor_assoc]

/-- Claim C10: the password digest is not injective up to `strcmp`: the
distinct passwords "B" and "BX" both hash to digests whose first byte is
the NUL produced by `0x42 ^ (0 + 0x42)`, so `strcmp` compares them equal,
and after `auth_add_user("u", "B")` the call `auth_verify("u", "BX")`
accepts the wrong password. -/
theorem c10_hash_collision :
    ([66, 0] : List Nat) ≠ [66, 88, 0] ∧
    strcmp (auth_hash_password [66, 0]) (auth_hash_password [66, 88, 0]) = 0 ∧
    auth_verify (auth_add_user authEmptyState [117, 0] [66, 0])
      [117, 0] [66, 88, 0] = true := by
  decide

/-- Claim C4 counterexample: `net_checksum` does not sum big-endian
words.  On the two bytes `[0x01, 0x00]` the code (a little-endian word
load on i386) returns 0xFFFE, while the big-endian algorithm stated in
the claim returns 0xFEFF. -/
theorem c4_checksum_bigendian_cex :
    net_checksum [1, 0] = 65534 ∧ checksum_spec_be [1, 0] = 65279 ∧
    net_checksum [1, 0] ≠ checksum_spec_be [1, 0] := by
  decide

/-- Claim C4 (amended): `net_checksum` computes the Internet checksum
over host-order (little-endian) 16-bit words, adding an odd trailing byte
as the low byte, folding carries as specified and returning the one's
complement; equivalently, on every byte sequence its result is the byte
swap of the big-endian checksum described by the spec. -/
theorem c4_checksum_swap (l : List Nat) :
    net_checksum l = swap16 (checksum_spec_be l) := by
  unfold net_checksum checksum_spec_be
  exact checksum_swap_aux (sum16 l) (sum16be l) (sum16_cong l) (sum16_zero l)

/-- Claim C5 counterexample: consuming a single frame whose hardware
length field is 16380 (cursor at 0) leaves the RX cursor at 8192 — on the
boundary, outside [0, 8192) — while the claimed "sum of padded sizes
modulo ring capacity" is 0: the code wraps by a single conditional
subtraction, not a modulo. -/
theorem c5_cursor_wrap_cex :
    rxStep 0 16380 = 8192 ∧ ¬ rxStep 0 16380 < 8192 ∧
    (16380 + 4 + 3) / 4 * 4 % 8192 = 0 ∧
    rxStep 0 16380 ≠ (16380 + 4 + 3) / 4 * 4 % 8192 := by
  decide

theorem rxStep_spec (off l : Nat) (h4 : off % 4 = 0) (hlt : off < 8192)
    (hl : l ≤ 8188) :
    rxStep off l = (off + (l + 4 + 3) / 4 * 4) % 8192 ∧
    rxStep off l % 4 = 0 ∧ rxStep off l < 8192 := by
  simp only [rxStep]
  split <;> omega

theorem rxSteps_general : ∀ (ls : List Nat) (off : Nat), off % 4 = 0 →
    off < 8192 → (∀ l ∈ ls, l ≤ 8188) →
    rxSteps off ls = (off + (ls.map fun l => (l + 4 + 3) / 4 * 4).sum) % 8192
  | [], off, h4, hlt, _ => by
    simp only [rxSteps, List.foldl_nil, List.map_nil, List.sum_nil]
    omega
  | l :: ls, off, h4, hlt, hb => by
    have hstep := rxStep_spec off l h4 hlt (hb l (by simp))
    have ih := rxSteps_general ls (rxStep off l) hstep.2.1 hstep.2.2
      (fun x hx => hb x (by simp [hx]))
    simp only [rxSteps, List.foldl_cons, List.map_cons, List.sum_cons] at ih ⊢
    rw [ih, hstep.1]
    omega

/-- Claim C5 (amended): provided every consumed frame's length field is
at most 8188 — i.e. its header-padded size does not exceed the ring
capacity, which holds for every frame the hardware can legitimately
report — the RX cursor after N consumed frames equals the sum of the
4-byte-aligned padded sizes modulo the ring capacity 8192, and always
lies in [0, 8192).  (For larger, corrupt length fields the single
conditional subtraction in the code is not a modulo; see the
counterexample.) -/
theorem c5_cursor_sum_mod (ls : List Nat) (h : ∀ l ∈ ls, l ≤ 8188) :
    rxSteps 0 ls = (ls.map fun l => (l + 4 + 3) / 4 * 4).sum % 8192 ∧
    rxSteps 0 ls < 8192 := by
  have := rxSteps_general ls 0 rfl (by omega) h
  constructor
  · simpa using this
  · rw [this]; omega

/-- Witness for C5: three frames of lengths 60, 1500, 8188. -/
theorem c5_cursor_witness :
    rxSteps 0 [60, 1500, 8188] =
      (([60, 1500, 8188].map fun l => (l + 4 + 3) / 4 * 4).sum) % 8192 ∧
    rxSteps 0 [60, 1500, 8188] < 8192 :=
  c5_cursor_sum_mod [60, 1500, 8188] (by decide)

/-- Claim C3 counterexample: the claim says every outbound reply payload
is, on the wire, the XOR encryption of the reply text under key 0x42; but
`net_send_tcp` copies the reply verbatim — for the one-byte reply `[65]`
the wire payload is `[65]`, not `[65 ^ 66]`. -/
theorem c3_outbound_plaintext_cex :
    ((net_send_tcp ⟨0, 0, 0, 0, false, true, [0]⟩ [65]).1).drop 54 = [65] ∧
    ([65] : List Nat) ≠ [65].map (fun b => b ^^^ 66) := by
  decide

/-- Claim C3 (amended): the cipher is applied on the inbound direction
only — every inbound PSH payload is XOR-decrypted with the fixed key 0x42
before any parsing or dispatch, while every outbound reply payload
emitted by `net_send_tcp` is the reply text copied verbatim
(unencrypted) onto the wire. -/
theorem c3_cipher_directions :
    (∀ (s : Session) (data : List Nat),
      ((net_send_tcp s data).1).drop 54 = data) ∧
    (∀ packet : List Nat,
      rxPayload packet = (rawPayload packet).map (fun b => b ^^^ 66)) := by
  constructor
  · exact send_tcp_payload
  · intro packet
    unfold rxPayload decrypt_data
    apply encrypt_full
    unfold rawPayload
    simp [List.length_take]

/-- Claim C8: from device initialization, five consecutive
`rtl8139_send_packet` calls with the device present and lengths at most
1500 use the transmit slots 0, 1, 2, 3, 0 — each send claims the next
slot unconditionally and advances the round-robin index modulo 4, ending
back at index 1. -/
theorem send_step (st : TxState) (d : List Nat) (l : Nat)
    (hio : st.io_base ≠ 0) (hl : l ≤ 1500) :
    (rtl8139_send_packet st d l).1.io_base = st.io_base ∧
    (rtl8139_send_packet st d l).1.tx_current = (st.tx_current + 1) % 4 ∧
    (rtl8139_send_packet st d l).2 = some st.tx_current := by
  unfold rtl8139_send_packet
  rw [if_neg (by push_neg; exact ⟨hio, by omega⟩)]
  exact ⟨rfl, rfl, rfl⟩

theorem c8_tx_round_robin (io : Nat) (d1 d2 d3 d4 d5 : List Nat)
    (l1 l2 l3 l4 l5 : Nat) (hio : io ≠ 0) (h1 : l1 ≤ 1500) (h2 : l2 ≤ 1500)
    (h3 : l3 ≤ 1500) (h4 : l4 ≤ 1500) (h5 : l5 ≤ 1500) :
    (sendRun (txInit io)
      [(d1, l1), (d2, l2), (d3, l3), (d4, l4), (d5, l5)]).2 =
      [some 0, some 1, some 2, some 3, some 0] ∧
    (sendRun (txInit io)
      [(d1, l1), (d2, l2), (d3, l3), (d4, l4), (d5, l5)]).1.tx_current = 1 := by
  have hio0 : (txInit io).io_base ≠ 0 := hio
  have t0 : (txInit io).tx_current = 0 := rfl
  have s1 := send_step (txInit io) d1 l1 hio0 h1
  have io1 : (rtl8139_send_packet (txInit io) d1 l1).1.io_base ≠ 0 := by
    rw [s1.1]; exact hio0
  have t1 : (rtl8139_send_packet (txInit io) d1 l1).1.tx_current = 1 := by
    rw [s1.2.1, t0]
  have s2 := send_step (rtl8139_send_packet (txInit io) d1 l1).1 d2 l2 io1 h2
  have io2 : (rtl8139_send_packet (rtl8139_send_packet (txInit io) d1 l1).1
      d2 l2).1.io_base ≠ 0 := by rw [s2.1]; exact io1
  have t2 : (rtl8139_send_packet (rtl8139_send_packet (txInit io) d1 l1).1
      d2 l2).1.tx_current = 2 := by rw [s2.2.1, t1]
  have s3 := send_step (rtl8139_send_packet (rtl8139_send_packet
    (txInit io) d1 l1).1 d2 l2).1 d3 l3 io2 h3
  have io3 : (rtl8139_send_packet (rtl8139_send_packet (rtl8139_send_packet
      (txInit io) d1 l1).1 d2 l2).1 d3 l3).1.io_base ≠ 0 := by
    rw [s3.1]; exact io2
  have t3 : (rtl8139_send_packet (rtl8139_send_packet (rtl8139_send_packet
      (txInit io) d1 l1).1 d2 l2).1 d3 l3).1.tx_current = 3 := by
    rw [s3.2.1, t2]
  have s4 := send_step (rtl8139_send_packet (rtl8139_send_packet
    (rtl8139_send_packet (txInit io) d1 l1).1 d2 l2).1 d3 l3).1 d4 l4 io3 h4
  have io4 : (rtl8139_send_packet (rtl8139_send_packet (rtl8139_send_packet
      (rtl8139_send_packet (txInit io) d1 l1).1 d2 l2).1 d3 l3).1
      d4 l4).1.io_base ≠ 0 := by rw [s4.1]; exact io3
  have t4 : (rtl8139_send_packet (rtl8139_send_packet (rtl8139_send_packet
      (rtl8139_send_packet (txInit io) d1 l1).1 d2 l2).1 d3 l3).1
      d4 l4).1.tx_current = 0 := by rw [s4.2.1, t3]
  have s5 := send_step (rtl8139_send_packet (rtl8139_send_packet
    (rtl8139_send_packet (rtl8139_send_packet (txInit io) d1 l1).1 d2 l2).1
    d3 l3).1 d4 l4).1 d5 l5 io4 h5
  constructor
  · simp only [sendRun]
    rw [s1.2.2, s2.2.2, s3.2.2, s4.2.2, s5.2.2, t0, t1, t2, t3, t4]
  · simp only [sendRun]
    rw [s5.2.1, t4]

/-- Claim C6: with all five session slots active and no session for the
sender, a SYN addressed to port 23 creates no session, transmits nothing,
and leaves the session table unchanged. -/
theorem c6_table_full_drop (auth : AuthState) (st : NetState)
    (packet : List Nat) (len : Nat)
    (hlen : ¬ len < 34)
    (heth : htons (read16LE packet 12) = 2048)
    (hproto : byteAt packet 23 = 6)
    (hport : htons (read16LE packet 36) = 23)
    (hsyn : byteAt packet 47 &&& 2 ≠ 0)
    (hfive : st.sessions.length = 5)
    (hall : ∀ s ∈ st.sessions, s.active = true)
    (hnone : net_get_session st (htonl (read32LE packet 26))
      (htons (read16LE packet 34)) = none) :
    net_process_packet auth st packet len = ⟨st, [], 0⟩ := by
  have hcreate : net_create_session st (htonl (read32LE packet 26))
      (htons (read16LE packet 34)) = none := by
    unfold net_create_session
    split
    · rfl
    · rw [findIdxP_none _ _ (fun x hx => by simp [hall x hx])]
  unfold net_process_packet
  rw [if_neg hlen, if_neg (by simp [heth]), if_neg (by simp [hproto]),
    if_neg (by simp [hport]), if_pos hsyn, hnone, hcreate]

/-- Decrypted credential payload "admin:admin123\n". -/
def adminGoodPayload : List Nat :=
  [97, 100, 109, 105, 110, 58, 97, 100, 109, 105, 110, 49, 50, 51, 10]

/-- Decrypted credential payload "admin:wrong\n". -/
def adminBadPayload : List Nat :=
  [97, 100, 109, 105, 110, 58, 119, 114, 111, 110, 103, 10]

/-- A non-SYN PSH frame to port 23 with an existing session reduces
`net_process_packet` to the data-handling branch. -/
theorem process_psh_view (auth : AuthState) (st : NetState)
    (packet : List Nat) (len i : Nat)
    (hlen : ¬ len < 34)
    (heth : htons (read16LE packet 12) = 2048)
    (hproto : byteAt packet 23 = 6)
    (hport : htons (read16LE packet 36) = 23)
    (hsynz : byteAt packet 47 &&& 2 = 0)
    (hpsh : byteAt packet 47 &&& 8 ≠ 0)
    (hsess : net_get_session st (htonl (read32LE packet 26))
      (htons (read16LE packet 34)) = some i) :
    net_process_packet auth st packet len = handlePsh auth st packet i := by
  unfold net_process_packet
  rw [if_neg hlen, if_neg (by simp [heth]), if_neg (by simp [hproto]),
    if_neg (by simp [hport]), if_neg (by simp [hsynz]), hsess]
  show (if byteAt packet 47 &&& 8 ≠ 0 then handlePsh auth st packet i
    else ⟨st, [], 0⟩) = handlePsh auth st packet i
  rw [if_pos hpsh]

theorem seqIn_fail (s : Session) :
    seqIn [85, 115, 101, 114, 110, 97, 109, 101, 58]
      (((net_send_tcp s failMsg).1).drop 54) = true := by
  rw [send_tcp_payload]
  decide

theorem seqIn_login (s : Session) :
    seqIn [85, 115, 101, 114, 110, 97, 109, 101, 58, 32]
      (((net_send_tcp s loginPrompt).1).drop 54) = true := by
  rw [send_tcp_payload]
  decide

/-- Claim C1: a well-formed SYN frame addressed to port 23, processed
with the session table empty, creates exactly one session (slot 0, the
other slots untouched, `num_sessions = 1`) with `authenticated = false`
and `active = true`, and hands exactly one frame to the transmit path
whose TCP payload contains the text "Username: ". -/
theorem c1_syn_creates_session (packet : List Nat) (len : Nat)
    (hlen : ¬ len < 34)
    (heth : htons (read16LE packet 12) = 2048)
    (hproto : byteAt packet 23 = 6)
    (hport : htons (read16LE packet 36) = 23)
    (hsyn : byteAt packet 47 &&& 2 ≠ 0) :
    (getIdx initSession (net_process_packet auth_init_state netInitState
      packet len).st.sessions 0).authenticated = false ∧
    (getIdx initSession (net_process_packet auth_init_state netInitState
      packet len).st.sessions 0).active = true ∧
    (net_process_packet auth_init_state netInitState
      packet len).st.sessions.drop 1 = List.replicate 4 initSession ∧
    (net_process_packet auth_init_state netInitState
      packet len).st.num_sessions = 1 ∧
    (net_process_packet auth_init_state netInitState
      packet len).frames.length = 1 ∧
    seqIn [85, 115, 101, 114, 110, 97, 109, 101, 58, 32]
      (((net_process_packet auth_init_state netInitState
        packet len).frames.headD []).drop 54) = true := by
  have hget : net_get_session netInitState (htonl (read32LE packet 26))
      (htons (read16LE packet 34)) = none := rfl
  have hcreate : net_create_session netInitState (htonl (read32LE packet 26))
      (htons (read16LE packet 34)) =
      some (0, ⟨setIdx netInitState.sessions 0
        ⟨htonl (read32LE packet 26), htons (read16LE packet 34),
          1000, 0, false, true, [0]⟩, 1⟩) := rfl
  unfold net_process_packet
  rw [if_neg hlen, if_neg (by simp [heth]), if_neg (by simp [hproto]),
    if_neg (by simp [hport]), if_pos hsyn, hget, hcreate]
  refine ⟨rfl, rfl, rfl, rfl, rfl, ?_⟩
  exact seqIn_login ⟨htonl (read32LE packet 26), htons (read16LE packet 34),
    1000, (htonl (read32LE packet 38) + 1) % 4294967296, false, true, [0]⟩

/-- Claim C2: for a PSH frame delivered to an existing unauthenticated
session, `net_process_packet` parses the decrypted payload as
username:password and calls `auth_verify` exactly once; when the payload
decrypts to "admin:admin123\n" (a preconfigured account) the session
becomes authenticated with stored username "admin" and exactly one
welcome reply is sent; when it decrypts to "admin:wrong\n" the session
stays unauthenticated and exactly one reply containing "Username:" is
sent. -/
theorem c2_auth_flow :
    (∀ (auth : AuthState) (st : NetState) (packet : List Nat) (len i : Nat),
      ¬ len < 34 → htons (read16LE packet 12) = 2048 → byteAt packet 23 = 6 →
      htons (read16LE packet 36) = 23 → byteAt packet 47 &&& 2 = 0 →
      byteAt packet 47 &&& 8 ≠ 0 →
      net_get_session st (htonl (read32LE packet 26))
        (htons (read16LE packet 34)) = some i →
      (getIdx initSession st.sessions i).authenticated = false →
      (net_process_packet auth st packet len).verifies = 1) ∧
    (∀ (st : NetState) (packet : List Nat) (len i : Nat),
      ¬ len < 34 → htons (read16LE packet 12) = 2048 → byteAt packet 23 = 6 →
      htons (read16LE packet 36) = 23 → byteAt packet 47 &&& 2 = 0 →
      byteAt packet 47 &&& 8 ≠ 0 →
      net_get_session st (htonl (read32LE packet 26))
        (htons (read16LE packet 34)) = some i →
      (getIdx initSession st.sessions i).authenticated = false →
      rxPayload packet = adminGoodPayload →
      (getIdx initSession (net_process_packet auth_init_state st packet
        len).st.sessions i).authenticated = true ∧
      (getIdx initSession (net_process_packet auth_init_state st packet
        len).st.sessions i).username = [97, 100, 109, 105, 110, 0] ∧
      (net_process_packet auth_init_state st packet len).frames.length = 1 ∧
      ((net_process_packet auth_init_state st packet
        len).frames.headD []).drop 54 = welcomeMsg) ∧
    (∀ (st : NetState) (packet : List Nat) (len i : Nat),
      ¬ len < 34 → htons (read16LE packet 12) = 2048 → byteAt packet 23 = 6 →
      htons (read16LE packet 36) = 23 → byteAt packet 47 &&& 2 = 0 →
      byteAt packet 47 &&& 8 ≠ 0 →
      net_get_session st (htonl (read32LE packet 26))
        (htons (read16LE packet 34)) = some i →
      (getIdx initSession st.sessions i).authenticated = false →
      rxPayload packet = adminBadPayload →
      (getIdx initSession (net_process_packet auth_init_state st packet
        len).st.sessions i).authenticated = false ∧
      (net_process_packet auth_init_state st packet len).frames.length = 1 ∧
      seqIn [85, 115, 101, 114, 110, 97, 109, 101, 58]
        (((net_process_packet auth_init_state st packet
          len).frames.headD []).drop 54) = true) := by
  refine ⟨?_, ?_, ?_⟩
  · intro auth st packet len i hlen heth hproto hport hsynz hpsh hsess hunauth
    rw [process_psh_view auth st packet len i hlen heth hproto hport hsynz
      hpsh hsess]
    simp only [handlePsh]
    rw [if_pos hunauth]
    split <;> rfl
  · intro st packet len i hlen heth hproto hport hsynz hpsh hsess hunauth hpay
    have hlt : i < st.sessions.length :=
      (get_session_some st _ _ i hsess).2.2.2
    rw [process_psh_view auth_init_state st packet len i hlen heth hproto
      hport hsynz hpsh hsess]
    simp only [handlePsh]
    rw [hpay, if_pos hunauth, if_pos (by decide :
      auth_verify auth_init_state (credUser adminGoodPayload)
        (credPass adminGoodPayload) = true)]
    refine ⟨?_, ?_, rfl, ?_⟩
    · rw [getIdx_setIdx_self _ _ _ _ hlt]
      rfl
    · rw [getIdx_setIdx_self _ _ _ _ hlt]
      show strcpyBytes (credUser adminGoodPayload) = [97, 100, 109, 105, 110, 0]
      decide
    · exact send_tcp_payload _ welcomeMsg
  · intro st packet len i hlen heth hproto hport hsynz hpsh hsess hunauth hpay
    have hlt : i < st.sessions.length :=
      (get_session_some st _ _ i hsess).2.2.2
    rw [process_psh_view auth_init_state st packet len i hlen heth hproto
      hport hsynz hpsh hsess]
    simp only [handlePsh]
    rw [hpay, if_pos hunauth, if_neg (by decide :
      ¬ auth_verify auth_init_state (credUser adminBadPayload)
        (credPass adminBadPayload) = true)]
    refine ⟨?_, rfl, ?_⟩
    · rw [getIdx_setIdx_self _ _ _ _ hlt]
      exact hunauth
    · exact seqIn_fail _

/-- C2 witness frame: PSH from (10.0.0.1, 1024) to port 23 whose 15-byte
payload is "admin:admin123\n" XOR-encrypted with 0x42. -/
def w2good : List Nat :=
  [0, 0, 0, 0, 0, 0, 0, 0, 0, 0, 0, 0, 8, 0,
   69, 0, 0, 55, 0, 0, 0, 0, 64, 6, 0, 0, 10, 0, 0, 1, 10, 0, 0, 2,
   4, 0, 0, 23, 0, 0, 0, 100, 0, 0, 0, 0, 80, 24, 32, 0, 0, 0, 0, 0,
   35, 38, 47, 43, 44, 120, 35, 38, 47, 43, 44, 115, 112, 113, 72]

/-- C2 witness frame: the same client sending "admin:wrong\n" encrypted
with 0x42 (12 payload bytes). -/
def w2bad : List Nat :=
  [0, 0, 0, 0, 0, 0, 0, 0, 0, 0, 0, 0, 8, 0,
   69, 0, 0, 52, 0, 0, 0, 0, 64, 6, 0, 0, 10, 0, 0, 1, 10, 0, 0, 2,
   4, 0, 0, 23, 0, 0, 0, 100, 0, 0, 0, 0, 80, 24, 32, 0, 0, 0, 0, 0,
   35, 38, 47, 43, 44, 120, 53, 48, 45, 44, 37, 72]

/-- C2 witness state: one existing unauthenticated session for
(10.0.0.1, 1024) in slot 0. -/
def w2st : NetState :=
  ⟨[⟨167772161, 1024, 1000, 0, false, true, [0]⟩, initSession, initSession,
    initSession, initSession], 1⟩

/-- Witness for C2: the two concrete credential frames against the
concrete session table. -/
theorem c2_auth_flow_witness :
    (net_process_packet auth_init_state w2st w2good 69).verifies = 1 ∧
    ((getIdx initSession (net_process_packet auth_init_state w2st w2good
      69).st.sessions 0).authenticated = true ∧
     (getIdx initSession (net_process_packet auth_init_state w2st w2good
      69).st.sessions 0).username = [97, 100, 109, 105, 110, 0] ∧
     (net_process_packet auth_init_state w2st w2good 69).frames.length = 1 ∧
     ((net_process_packet auth_init_state w2st w2good
      69).frames.headD []).drop 54 = welcomeMsg) ∧
    ((getIdx initSession (net_process_packet auth_init_state w2st w2bad
      66).st.sessions 0).authenticated = false ∧
     (net_process_packet auth_init_state w2st w2bad 66).frames.length = 1 ∧
     seqIn [85, 115, 101, 114, 110, 97, 109, 101, 58]
       (((net_process_packet auth_init_state w2st w2bad
         66).frames.headD []).drop 54) = true) :=
  ⟨c2_auth_flow.1 auth_init_state w2st w2good 69 0 (by decide) (by decide)
    (by decide) (by decide) (by decide) (by decide) (by decide) (by decide),
   c2_auth_flow.2.1 w2st w2good 69 0 (by decide) (by decide) (by decide)
    (by decide) (by decide) (by decide) (by decide) (by decide) (by decide),
   c2_auth_flow.2.2 w2st w2bad 66 0 (by decide) (by decide) (by decide)
    (by decide) (by decide) (by decide) (by decide) (by decide) (by decide)⟩

/-- A frame used by the C6 witness: a well-formed 54-byte SYN from
client (10.0.0.6, 1025) to port 23. -/
def w6pkt : List Nat :=
  [0, 0, 0, 0, 0, 0, 0, 0, 0, 0, 0, 0, 8, 0,
   69, 0, 0, 40, 0, 0, 0, 0, 64, 6, 0, 0, 10, 0, 0, 6, 10, 0, 0, 2,
   4, 1, 0, 23, 0, 0, 0, 5, 0, 0, 0, 0, 80, 2, 32, 0, 0, 0, 0, 0]

/-- A full session table used by the C6 witness: five active sessions
from five other clients. -/
def w6st : NetState :=
  ⟨[⟨167772171, 1001, 1000, 7, false, true, [0]⟩,
    ⟨167772172, 1002, 1000, 7, true, true, [0]⟩,
    ⟨167772173, 1003, 1000, 7, false, true, [0]⟩,
    ⟨167772174, 1004, 1000, 7, false, true, [0]⟩,
    ⟨167772175, 1005, 1000, 7, false, true, [0]⟩], 5⟩

/-- Witness for C1: the concrete SYN frame `w6pkt` processed against the
empty session table. -/
theorem c1_syn_witness :
    (getIdx initSession (net_process_packet auth_init_state netInitState
      w6pkt 54).st.sessions 0).authenticated = false ∧
    (getIdx initSession (net_process_packet auth_init_state netInitState
      w6pkt 54).st.sessions 0).active = true ∧
    (net_process_packet auth_init_state netInitState
      w6pkt 54).st.sessions.drop 1 = List.replicate 4 initSession ∧
    (net_process_packet auth_init_state netInitState
      w6pkt 54).st.num_sessions = 1 ∧
    (net_process_packet auth_init_state netInitState
      w6pkt 54).frames.length = 1 ∧
    seqIn [85, 115, 101, 114, 110, 97, 109, 101, 58, 32]
      (((net_process_packet auth_init_state netInitState
        w6pkt 54).frames.headD []).drop 54) = true :=
  c1_syn_creates_session w6pkt 54 (by decide) (by decide) (by decide)
    (by decide) (by decide)

/-- Witness for C6: the sixth client's SYN is dropped silently. -/
theorem c6_table_full_witness :
    net_process_packet auth_init_state w6st w6pkt 54 = ⟨w6st, [], 0⟩ :=
  c6_table_full_drop auth_init_state w6st w6pkt 54 (by decide) (by decide)
    (by decide) (by decide) (by decide) (by decide) (by decide) (by decide)

theorem step_auth_mono (auth : AuthState) (st : NetState) (packet : List Nat)
    (len i : Nat)
    (ha : (getIdx initSession st.sessions i).active = true)
    (hu : (getIdx initSession st.sessions i).authenticated = true) :
    (getIdx initSession (net_process_packet auth st packet
      len).st.sessions i).active = true ∧
    (getIdx initSession (net_process_packet auth st packet
      len).st.sessions i).authenticated = true := by
  unfold net_process_packet
  split
  · exact ⟨ha, hu⟩
  · split
    · exact ⟨ha, hu⟩
    · split
      · exact ⟨ha, hu⟩
      · split
        · exact ⟨ha, hu⟩
        · split
          · -- SYN branch
            split
            · exact ⟨ha, hu⟩
            · split
              · exact ⟨ha, hu⟩
              · rename_i i1 st1 heq
                obtain ⟨hinact, hlen1, hsessions⟩ :=
                  create_some st _ _ i1 st1 heq
                have hne : i ≠ i1 := by
                  intro h
                  rw [h] at ha
                  rw [ha] at hinact
                  exact absurd hinact (by decide)
                simp only [handleSynReply]
                refine ⟨?_, ?_⟩ <;>
                  rw [hsessions, getIdx_setIdx_ne _ _ _ _ _ hne,
                    getIdx_setIdx_ne _ _ _ _ _ hne]
                · exact ha
                · exact hu
          · -- non-SYN branch
            split
            · rename_i j heq
              split
              · -- PSH for session j
                have hlt1 := (get_session_some st _ _ j heq).2.2.2
                by_cases hij : i = j
                · subst hij
                  simp only [handlePsh]
                  rw [if_neg (by simp [hu])]
                  refine ⟨?_, ?_⟩ <;> rw [getIdx_setIdx_self _ _ _ _ hlt1]
                  · rw [(shell_session _ _).2]
                    exact ha
                  · rw [(shell_session _ _).1]
                    exact hu
                · simp only [handlePsh]
                  have hne2 : ∀ X : Session,
                      (getIdx initSession (setIdx st.sessions j X)
                        i).active = true ∧
                      (getIdx initSession (setIdx st.sessions j X)
                        i).authenticated = true := by
                    intro X
                    rw [getIdx_setIdx_ne _ _ _ _ _ hij]
                    exact ⟨ha, hu⟩
                  split
                  · split <;> exact hne2 _
                  · exact hne2 _
              · exact ⟨ha, hu⟩
            · exact ⟨ha, hu⟩

theorem processAll_auth_mono : ∀ (auth : AuthState)
    (pkts : List (List Nat × Nat)) (st : NetState) (i : Nat),
    (getIdx initSession st.sessions i).active = true →
    (getIdx initSession st.sessions i).authenticated = true →
    (getIdx initSession (processAll auth st pkts).sessions i).active = true ∧
    (getIdx initSession (processAll auth st pkts).sessions
      i).authenticated = true
  | _, [], _, _, ha, hu => ⟨ha, hu⟩
  | auth, p :: rest, st, i, ha, hu => by
    have hstep := step_auth_mono auth st p.1 p.2 i ha hu
    exact processAll_auth_mono auth rest
      (net_process_packet auth st p.1 p.2).st i hstep.1 hstep.2

/-- Claim C9: across any sequence of `net_process_packet` calls, a
session that is active and authenticated stays active and authenticated —
the `authenticated` flag never transitions back from true to false while
the session is live. -/
theorem c9_auth_monotone (auth : AuthState) (pkts : List (List Nat × Nat))
    (st : NetState) (i : Nat)
    (ha : (getIdx initSession st.sessions i).active = true)
    (hu : (getIdx initSession st.sessions i).authenticated = true) :
    (getIdx initSession (processAll auth st pkts).sessions i).active = true ∧
    (getIdx initSession (processAll auth st pkts).sessions
      i).authenticated = true :=
  processAll_auth_mono auth pkts st i ha hu

/-- Witness for C9: an authenticated session in slot 0 survives a SYN
from a second client, a PSH frame of its own, and a malformed runt
frame. -/
theorem c9_auth_monotone_witness :
    (getIdx initSession (processAll auth_init_state
      ⟨[⟨167772161, 1024, 1000, 0, true, true, [0]⟩, initSession,
        initSession, initSession, initSession], 1⟩
      [(w6pkt, 54), (w2good, 69), ([], 0)]).sessions 0).active = true ∧
    (getIdx initSession (processAll auth_init_state
      ⟨[⟨167772161, 1024, 1000, 0, true, true, [0]⟩, initSession,
        initSession, initSession, initSession], 1⟩
      [(w6pkt, 54), (w2good, 69), ([], 0)]).sessions 0).authenticated = true :=
  c9_auth_monotone auth_init_state [(w6pkt, 54), (w2good, 69), ([], 0)]
    ⟨[⟨167772161, 1024, 1000, 0, true, true, [0]⟩, initSession, initSession,
      initSession, initSession], 1⟩ 0 (by decide) (by decide)

/-- Witness for C8: a present device and five empty packets. -/
theorem c8_tx_witness :
    (sendRun (txInit 49152)
      [([], 0), ([], 0), ([], 0), ([], 0), ([], 0)]).2 =
      [some 0, some 1, some 2, some 3, some 0] ∧
    (sendRun (txInit 49152)
      [([], 0), ([], 0), ([], 0), ([], 0), ([], 0)]).1.tx_current = 1 :=
  c8_tx_round_robin 49152 [] [] [] [] [] 0 0 0 0 0 (by decide) (by decide)
    (by decide) (by decide) (by decide) (by decide)
